import Mathlib

/-!
# Gastown coordination engine — formal model

A shallow embedding of the gastown work-queue dispatcher
(`internal/cmd/queue.go`), the dispatch primitive (`slingBeadToPolecat`),
the wisp reaper's stale-issue pass (`internal/daemon/wisp_reaper.go`) and
the patrol observability handle (`dogMol`), together with theorems settling
the specification claims about them.

External effects (the `bd` store client, tmux session counting, config
loading, polecat spawning) are modelled as explicit inputs: each embedded
function takes the outcome of its external calls as a parameter and threads
the mutable store state explicitly.
-/

namespace Gastown

/-! ## Store state and labels

The label store is modelled as a map from bead id to its label set.
Queue labels are the authoritative queue (spec §4.6). -/

/-- Mutable label state of the beads store: bead id to list of labels. -/
def Store : Type := String → List String

/-- Modelled from the spec: the `queued` label constant (named `LabelQueued`
in the source, which is outside the provided files; the in-repo comments
call it the `gt:queued` label). Marks a pending task. -/
def LabelQueued : String := "gt:queued"

/-- Modelled from the spec: the `queued:rig:<name>` label prefix constant
(named `LabelQueueRigPrefix` in the source, outside the provided files).
Names the target rig of a queued bead. -/
def LabelQueueRig : String := "gt:queued:rig:"

/-- Modelled from the spec: `getQueueRig` recovers the target rig from a
bead's labels — the suffix of the first `queued:rig:<name>` label. -/
def getQueueRig (labels : List String) : String :=
  match labels.find? (fun l => l.startsWith LabelQueueRig) with
  | some l => l.drop LabelQueueRig.length
  | none => ""

/-- Modelled from the spec: `dequeueBeadLabels` (the dispatch claim, outside
the provided files) removes the `queued` label and any `queued:rig:*` label
from the bead. -/
def dequeueBeadLabels (beadID : String) (store : Store) : Store :=
  fun x =>
    if x = beadID then
      (store x).filter (fun l => !(l == LabelQueued || l.startsWith LabelQueueRig))
    else store x

/-! ## Queue runtime state (`LoadQueueState` / `SaveQueueState` document) -/

/-- The queue runtime state record: `paused`, `paused_by`,
`last_dispatch_at`, `last_dispatch_count` (spec §3). -/
structure QueueState where
  paused : Bool
  pausedBy : String
  lastDispatchAt : String
  lastDispatchCount : Nat
  deriving Repr, DecidableEq

/-- Modelled from the spec: `QueueState.RecordDispatch` (outside the
provided files) records `last_dispatch_at` and `last_dispatch_count` in
the runtime state. -/
def recordDispatch (qs : QueueState) (count : Nat) (now : String) : QueueState :=
  { qs with lastDispatchAt := now, lastDispatchCount := count }

/-! ## Queue queries (`listQueuedBeads`, `getReadyQueuedBeads`) -/

/-- Raw bead record as parsed from `bd list --json` in `listQueuedBeads`. -/
structure RawListBead where
  ID : String
  Title : String
  Status : String
  Labels : List String
  deriving Repr, DecidableEq

/-- `queuedBeadInfo` from queue.go: info about a queued bead for display. -/
structure queuedBeadInfo where
  ID : String
  Title : String
  Status : String
  TargetRig : String
  Blocked : Bool
  deriving Repr, DecidableEq

/-- `listQueuedBeads` from queue.go: returns all beads with the queued
label. The `bd list` invocation is an input: `Except.error` is a non-zero
exit. On error the function returns the empty list and no error. -/
def listQueuedBeads (queryResult : Except Unit (List RawListBead)) :
    List queuedBeadInfo × Option String :=
  match queryResult with
  | .error _ => ([], none)
  | .ok raw =>
    (raw.map (fun r => { ID := r.ID, Title := r.Title, Status := r.Status,
                         TargetRig := getQueueRig r.Labels, Blocked := false }), none)

/-- Raw bead record as parsed from `bd ready --json` in
`getReadyQueuedBeads`. -/
structure RawReadyBead where
  ID : String
  Title : String
  Description : String
  Labels : List String
  deriving Repr, DecidableEq

/-- `readyQueuedBead` from queue.go: info about a queued bead ready for
dispatch. -/
structure readyQueuedBead where
  ID : String
  Title : String
  TargetRig : String
  Description : String
  Labels : List String
  deriving Repr, DecidableEq

/-- `getReadyQueuedBeads` from queue.go: queries beads that are both queued
and unblocked via `bd ready`. The invocation outcome is an input:
`Except.error` is a non-zero exit, in which case the function returns
`(nil, nil)` — an empty list and no error. -/
def getReadyQueuedBeads (queryResult : Except Unit (List RawReadyBead)) :
    List readyQueuedBead × Option String :=
  match queryResult with
  | .error _ => ([], none)
  | .ok raw =>
    (raw.map (fun r => { ID := r.ID, Title := r.Title,
                         TargetRig := getQueueRig r.Labels,
                         Description := r.Description, Labels := r.Labels }), none)

/-! ## Single-bead dispatch and re-queue -/

/-- `requeueBead` from queue.go: re-adds the queue labels (`queued` and
`queued:rig:<name>`) to a bead after a dispatch failure. -/
def requeueBead (beadID rigName : String) (store : Store) : Store :=
  fun x =>
    if x = beadID then store x ++ [LabelQueued, LabelQueueRig ++ rigName]
    else store x

/-- `dispatchSingleBead` from queue.go: dequeues (claims) one bead, then
dispatches it via `slingBeadToPolecat`. The sling outcome is abstracted by
the oracle `slingOk`. On sling failure after the claim, the bead is
re-queued and an error is returned. Returns `(error?, store')`. -/
def dispatchSingleBead (b : readyQueuedBead) (slingOk : String → Bool)
    (store : Store) : Option String × Store :=
  let store1 := dequeueBeadLabels b.ID store
  if slingOk b.ID then
    (none, store1)
  else
    (some "sling failed", requeueBead b.ID b.TargetRig store1)

/-- The dispatch loop of `dispatchQueuedWork`: attempts each bead in order;
a failed dispatch is logged and the loop continues with the next candidate.
Returns `(dispatched count, store')`. -/
def dispatchLoop (slingOk : String → Bool) :
    List readyQueuedBead → Store → Nat × Store
  | [], store => (0, store)
  | b :: rest, store =>
    match dispatchSingleBead b slingOk store with
    | (none, store') =>
      let r := dispatchLoop slingOk rest store'
      (r.1 + 1, r.2)
    | (some _, store') => dispatchLoop slingOk rest store'

/-! ## The dispatch cycle (`dispatchQueuedWork`) -/

/-- Environment of one dispatch cycle: the loaded queue state, the town
settings queue config (`Enabled`, `GetMaxPolecats`, `GetBatchSize`), the
active polecat count (`countActivePolecats`), the `bd ready` query outcome
and the sling oracle. -/
structure DispatchEnv where
  queueState : QueueState
  enabled : Bool
  cfgMaxPolecats : Nat
  cfgBatchSize : Nat
  activePolecats : Nat
  readyQuery : Except Unit (List RawReadyBead)
  slingOk : String → Bool

/-- The plan printed by a dry-run cycle: what would be dispatched. -/
structure DispatchPlan where
  toDispatch : Nat
  activePolecats : Nat
  maxPolecats : Int
  batchSize : Int
  readyCount : Nat
  beads : List (String × String)
  deriving Repr, DecidableEq

/-- Observable outcome of one dispatch cycle: the returned dispatch count
and error, the number of dispatch attempts (calls to `dispatchSingleBead`),
the final label store, the final runtime state, and the dry-run plan if one
was printed. -/
structure DispatchOutcome where
  dispatched : Nat
  attempts : Nat
  err : Option String
  store : Store
  queueState : QueueState
  plan : Option DispatchPlan

/-- `dispatchQueuedWork` from queue.go: the main dispatch cycle. Checks
pause and enablement, computes capacity from the configured ceiling and the
active polecat count, queries ready queued beads, takes the minimum of
capacity, batch size and ready count, and dispatches in order (dry run:
prints the plan and returns without mutating). Records the dispatch in the
runtime state when at least one bead dispatched. -/
def dispatchQueuedWork (env : DispatchEnv) (batchOverride maxPolOverride : Int)
    (dryRun : Bool) (now : String) (store : Store) : DispatchOutcome :=
  let qs := env.queueState
  if qs.paused then
    { dispatched := 0, attempts := 0, err := none, store := store,
      queueState := qs, plan := none }
  else if !env.enabled && !dryRun then
    { dispatched := 0, attempts := 0, err := none, store := store,
      queueState := qs, plan := none }
  else
    let maxPolecats : Int := if maxPolOverride > 0 then maxPolOverride else env.cfgMaxPolecats
    let batchSize : Int := if batchOverride > 0 then batchOverride else env.cfgBatchSize
    let active : Nat := env.activePolecats
    let capacity : Int := maxPolecats - active
    if capacity ≤ 0 then
      { dispatched := 0, attempts := 0, err := none, store := store,
        queueState := qs, plan := none }
    else
      let readyBeads := (getReadyQueuedBeads env.readyQuery).1
      if readyBeads.length = 0 then
        { dispatched := 0, attempts := 0, err := none, store := store,
          queueState := qs, plan := none }
      else
        let toDispatch1 : Int := if batchSize < capacity then batchSize else capacity
        let toDispatch : Int :=
          if (readyBeads.length : Int) < toDispatch1 then readyBeads.length else toDispatch1
        if dryRun then
          { dispatched := 0, attempts := 0, err := none, store := store,
            queueState := qs,
            plan := some { toDispatch := toDispatch.toNat, activePolecats := active,
                           maxPolecats := maxPolecats, batchSize := batchSize,
                           readyCount := readyBeads.length,
                           beads := (readyBeads.take toDispatch.toNat).map
                             (fun b => (b.ID, b.TargetRig)) } }
        else
          let n := toDispatch.toNat
          let r := dispatchLoop env.slingOk (readyBeads.take n) store
          let qs' := if r.1 > 0 then recordDispatch qs r.1 now else qs
          { dispatched := r.1, attempts := n, err := none, store := r.2,
            queueState := qs', plan := none }

/-! ## The dispatch primitive (`slingBeadToPolecat`)

From the `sling` source file. External collaborators (`getBeadInfo`,
`SpawnPolecatForSling`, `hookBeadWithRetry`, town-root discovery) are
inputs; the convoy store is threaded explicitly. -/

/-- `SlingBeadOptions` from the sling source file: parameters for
dispatching a single bead to a polecat. -/
structure SlingBeadOptions where
  force : Bool
  account : String
  create : Bool
  agent : String
  noConvoy : Bool
  args : String
  subject : String
  townRoot : String
  beadsDir : String
  deriving Repr, DecidableEq

/-- The bead fields read by `getBeadInfo` that the sling inspects. -/
structure BeadInfo where
  status : String
  title : String
  deriving Repr, DecidableEq

/-- A convoy: an aggregate tracking a list of member issues (spec §3). -/
structure Convoy where
  id : String
  isOpenConvoy : Bool
  members : List String
  deriving Repr, DecidableEq

/-- Modelled from the spec: `isTrackedByConvoy` (outside the provided
files) returns the id of the open convoy tracking the bead, or the empty
string when none does (at most one open convoy may track a member). -/
def isTrackedByConvoy (beadID : String) (cs : List Convoy) : String :=
  match cs.find? (fun c => c.isOpenConvoy && c.members.contains beadID) with
  | some c => c.id
  | none => ""

/-- Modelled from the spec: `createAutoConvoy` (outside the provided files)
creates a single-member auto-convoy tracking exactly the given bead. -/
def createAutoConvoy (beadID : String) (newID : String) (cs : List Convoy) :
    List Convoy :=
  cs ++ [{ id := newID, isOpenConvoy := true, members := [beadID] }]

/-- Environment of one sling: the `getBeadInfo` outcome, town-root
discovery, the spawn and hook outcomes, and the id the auto-convoy would be
created under. -/
structure SlingEnv where
  infoResult : Except Unit BeadInfo
  townRootResult : Except Unit String
  spawnOk : Bool
  hookOk : Bool
  newConvoyID : String

/-- Observable outcome of one sling: the returned error (if any), whether
the spawn step was reached, whether a polecat was spawned, and the final
convoy store. -/
structure SlingResult where
  err : Option String
  spawnAttempted : Bool
  spawned : Bool
  convoys : List Convoy

/-- `slingBeadToPolecat` from the sling source file: checks the bead is not
already bound (`pinned`/`hooked`) unless forced, spawns a polecat, creates
or reuses the enclosing convoy (unless `noConvoy`), and hooks the bead.
Later steps (events, field storage, Dolt branch, session start) only warn
and do not change the modelled outcome. -/
def slingBeadToPolecat (beadID : String) (opts : SlingBeadOptions)
    (env : SlingEnv) (cs : List Convoy) : SlingResult :=
  let townRootOk : Bool :=
    if opts.townRoot = "" then
      match env.townRootResult with
      | .error _ => false
      | .ok _ => true
    else true
  if !townRootOk then
    { err := some "could not find town root", spawnAttempted := false,
      spawned := false, convoys := cs }
  else
    match env.infoResult with
    | .error _ =>
      { err := some "could not get bead info", spawnAttempted := false,
        spawned := false, convoys := cs }
    | .ok info =>
      if (info.status == "pinned" || info.status == "hooked") && !opts.force then
        { err := some ("already " ++ info.status ++ " (use --force to re-sling)"),
          spawnAttempted := false, spawned := false, convoys := cs }
      else if !env.spawnOk then
        { err := some "failed to spawn polecat", spawnAttempted := true,
          spawned := false, convoys := cs }
      else
        let cs1 :=
          if !opts.noConvoy then
            if isTrackedByConvoy beadID cs = "" then
              createAutoConvoy beadID env.newConvoyID cs
            else cs
          else cs
        if !env.hookOk then
          { err := some "failed to hook bead", spawnAttempted := true,
            spawned := true, convoys := cs1 }
        else
          { err := none, spawnAttempted := true, spawned := true,
            convoys := cs1 }

/-! ## Wisp reaper: stale-issue auto-close (`wisp_reaper.go`)

The per-database SQL pass `autoCloseStaleIssuesInDB` is modelled over an
explicit table state: a list of issue rows and a list of dependency rows.
Timestamps are seconds since the epoch. -/

/-- One row of the `issues` table, with the columns the reaper reads or
writes. -/
structure Issue where
  id : String
  title : String
  status : String
  issue_type : String
  priority : Int
  updated_at : Nat
  closed_at : Option Nat
  close_reason : Option String
  deriving Repr, DecidableEq

/-- One row of the `dependencies` table. -/
structure Dependency where
  issue_id : String
  depends_on_id : String
  deriving Repr, DecidableEq

/-- The per-database table state the stale-issue pass operates on. -/
structure BeadsDB where
  issues : List Issue
  deps : List Dependency
  deriving Repr, DecidableEq

/-- `status IN ('open', 'in_progress')` as used throughout the reaper
queries. -/
def isOpenStatus (s : String) : Bool :=
  s == "open" || s == "in_progress"

/-- `defaultStaleIssueAge` from wisp_reaper.go: 30 days (in seconds here;
`30 * 24 * time.Hour` in the source). -/
def defaultStaleIssueAge : Nat := 30 * 24 * 60 * 60

/-- `staleIssueAge` from wisp_reaper.go: the configured stale issue age
(the parsed `StaleIssueAgeStr`, an input here) if present and positive,
else the default. -/
def staleIssueAge (cfg : Option Int) : Nat :=
  match cfg with
  | some d => if d > 0 then d.toNat else defaultStaleIssueAge
  | none => defaultStaleIssueAge

/-- The candidate `WHERE` clause of `autoCloseStaleIssuesInDB`: open or
in-progress, updated before the stale cutoff, priority above 1, not an
epic, and in neither `NOT IN` exclusion subquery (depends on an open
issue, or is depended on by an open issue). -/
def staleCandidate (db : BeadsDB) (staleCutoff : Nat) (i : Issue) : Bool :=
  isOpenStatus i.status
  && decide (i.updated_at < staleCutoff)
  && decide (i.priority > 1)
  && (i.issue_type != "epic")
  && !(db.deps.any fun d => d.issue_id == i.id
        && db.issues.any fun j => j.id == d.depends_on_id && isOpenStatus j.status)
  && !(db.deps.any fun d => d.depends_on_id == i.id
        && db.issues.any fun j => j.id == d.issue_id && isOpenStatus j.status)

/-- The reaper's close `UPDATE`: set status closed, stamp `closed_at`, and
record the auto-close reason. -/
def reaperClose (nowT : Nat) (i : Issue) : Issue :=
  { i with status := "closed", closed_at := some nowT,
           close_reason := some "stale:auto-closed by reaper" }

/-- `autoCloseStaleIssuesInDB` from wisp_reaper.go: selects the stale
candidates in one snapshot, then closes each one. Returns the number of
issues auto-closed and the resulting table state. -/
def autoCloseStaleIssuesInDB (db : BeadsDB) (staleCutoff nowT : Nat) :
    Nat × BeadsDB :=
  let candidates := db.issues.filter (staleCandidate db staleCutoff)
  (candidates.length,
   { issues := db.issues.map
       (fun i => if staleCandidate db staleCutoff i then reaperClose nowT i else i),
     deps := db.deps })

/-- The claim's characterisation of a stale auto-closable issue, written
from the specification's words: open or in-progress, older than the stale
threshold, priority numerically greater than 1, not an epic, and not
linked by any dependency — in either direction — to an open or
in-progress issue. -/
def specStaleAutoClose (db : BeadsDB) (staleCutoff : Nat) (i : Issue) : Prop :=
  (i.status = "open" ∨ i.status = "in_progress")
  ∧ i.updated_at < staleCutoff
  ∧ 1 < i.priority
  ∧ i.issue_type ≠ "epic"
  ∧ ¬ ∃ d ∈ db.deps, ∃ j ∈ db.issues,
      (j.status = "open" ∨ j.status = "in_progress")
      ∧ ((d.issue_id = i.id ∧ d.depends_on_id = j.id)
         ∨ (d.depends_on_id = i.id ∧ d.issue_id = j.id))

instance (db : BeadsDB) (staleCutoff : Nat) (i : Issue) :
    Decidable (specStaleAutoClose db staleCutoff i) := by
  unfold specStaleAutoClose
  infer_instance

/-! ## Patrol observability handle (`dogMol`)

From the dog-molecule source file. `runBd` outcomes are inputs; the
observable effect of a handle operation is the list of `bd` invocations it
issues. -/

/-- Go `unicode.IsSpace` restricted to the ASCII range, as used by
`strings.Fields`. -/
def isGoSpace (c : Char) : Bool :=
  c = ' ' || c = '\t' || c = '\n' || c = '\x0b' || c = '\x0c' || c = '\r'

/-- `strings.Fields`: split around runs of whitespace. -/
def goFields (s : String) : List String :=
  (s.split isGoSpace).filter (fun w => w ≠ "")

/-- ASCII letter test used by `stripANSI` to find the end of an escape
sequence. -/
def isAsciiLetterChar (c : Char) : Bool :=
  ('A' ≤ c && c ≤ 'Z') || ('a' ≤ c && c ≤ 'z')

/-- The inner skip loop of `stripANSI`: drop characters up to and including
the first ASCII letter (the terminator of a CSI sequence). -/
def dropAnsiSeq : List Char → List Char
  | [] => []
  | c :: rest => if isAsciiLetterChar c then rest else dropAnsiSeq rest

theorem dropAnsiSeq_length_le (l : List Char) :
    (dropAnsiSeq l).length ≤ l.length := by
  induction l with
  | nil => simp [dropAnsiSeq]
  | cons c rest ih =>
    by_cases h : isAsciiLetterChar c = true
    · simp [dropAnsiSeq, h]
    · simp only [dropAnsiSeq, h]
      simp only [Bool.false_eq_true, if_false, List.length_cons]
      omega

/-- Character-list core of `stripANSI` from the dog-molecule source file:
removes ANSI escape sequences. -/
def stripANSIList : List Char → List Char
  | [] => []
  | '\x1b' :: '[' :: rest => stripANSIList (dropAnsiSeq rest)
  | '\x1b' :: rest => stripANSIList rest
  | c :: rest => c :: stripANSIList rest
termination_by l => l.length
decreasing_by
  all_goals simp only [List.length_cons]
  · have := dropAnsiSeq_length_le rest
    omega
  · omega
  · omega

/-- `stripANSI` from the dog-molecule source file. -/
def stripANSI (s : String) : String :=
  String.mk (stripANSIList s.toList)

/-- The punctuation set of `strings.TrimRight(cleaned, ".,;:!?")`. -/
def isWispPunct (c : Char) : Bool :=
  c = '.' || c = ',' || c = ';' || c = ':' || c = '!' || c = '?'

/-- `strings.TrimRight` over the wisp punctuation set. -/
def trimRightPunct (s : String) : String :=
  String.mk ((s.toList.reverse.dropWhile isWispPunct).reverse)

/-- The per-word cleaning step of `parseWispID`. -/
def cleanWispWord (w : String) : String :=
  trimRightPunct (stripANSI w)

/-- `parseWispID` from the dog-molecule source file: the first
whitespace-separated word that, after cleaning, contains `-wisp-`;
otherwise the first cleaned word that looks like a bead id (longer than
three characters, contains a dash, not flag-like). -/
def parseWispID (output : String) : String :=
  let ws := goFields output
  match ws.find? (fun w => decide (("-wisp-".toList) <:+: (cleanWispWord w).toList)) with
  | some w => cleanWispWord w
  | none =>
    match ws.find? (fun w =>
        let cleaned := cleanWispWord w
        cleaned.length > 3 && cleaned.toList.contains '-'
          && !cleaned.startsWith "--") with
    | some w => cleanWispWord w
    | none => ""

/-- `dogMol` from the dog-molecule source file: the observability handle of
a patrol cycle. `rootID` is empty if the pour failed. -/
structure DogMol where
  rootID : String
  stepIDs : List (String × String)
  deriving Repr, DecidableEq

/-- The trace of `bd` invocations an observability operation issues. -/
abbrev BdLog : Type := List (List String)

/-- `pourDogMolecule` from the dog-molecule source file: runs
`bd mol wisp <formula>` (outcome is the input `runResult`), parses the root
wisp id from its output, and discovers the step ids (the `discoverSteps`
child listing is the input `discovered`). On any failure it returns a
handle with an empty root id. -/
def pourDogMolecule (runResult : Except Unit String)
    (discovered : String → List (String × String)) : DogMol :=
  match runResult with
  | .error _ => { rootID := "", stepIDs := [] }
  | .ok out =>
    let root := parseWispID out
    if root = "" then { rootID := "", stepIDs := [] }
    else { rootID := root, stepIDs := discovered root }

/-- `dogMol.closeStep`: closes a molecule step; a no-op when the handle has
no root (graceful degradation) or the step is unknown. -/
def DogMol.closeStep (dm : DogMol) (stepSlug : String) (log : BdLog) : BdLog :=
  if dm.rootID = "" then log
  else
    match dm.stepIDs.find? (fun p => p.1 == stepSlug) with
    | none => log
    | some p => log ++ [["close", p.2]]

/-- `dogMol.failStep`: marks a molecule step failed with a reason; a no-op
when the handle has no root or the step is unknown. -/
def DogMol.failStep (dm : DogMol) (stepSlug reason : String) (log : BdLog) :
    BdLog :=
  if dm.rootID = "" then log
  else
    match dm.stepIDs.find? (fun p => p.1 == stepSlug) with
    | none => log
    | some p => log ++ [["close", p.2, "--reason", reason]]

/-- `dogMol.close`: closes the root molecule wisp; a no-op when the handle
has no root. -/
def DogMol.close (dm : DogMol) (log : BdLog) : BdLog :=
  if dm.rootID = "" then log
  else log ++ [["close", dm.rootID]]

/-! ## Theorems -/

/-- Batch size is never negative: it is either a positive override or a
config value cast from `Nat`. -/
theorem batchSize_nonneg (batchOverride : Int) (cfg : Nat) :
    0 ≤ (if batchOverride > 0 then batchOverride else (cfg : Int)) := by
  split
  · omega
  · exact Int.natCast_nonneg cfg

/-- C1: In a dispatch cycle that is not paused, is enabled and is not a dry
run, the number of dispatch attempts equals
min(capacity, batch_size, |ready|) where
capacity = max_concurrent − active; and whenever capacity ≤ 0 the cycle
returns immediately with zero dispatches and no mutation. -/
theorem dispatch_cycle_attempts_min (env : DispatchEnv)
    (batchOverride maxPolOverride : Int) (now : String) (store : Store)
    (hp : env.queueState.paused = false) (he : env.enabled = true) :
    ((if maxPolOverride > 0 then maxPolOverride else (env.cfgMaxPolecats : Int))
        - (env.activePolecats : Int) ≤ 0 →
      (dispatchQueuedWork env batchOverride maxPolOverride false now store).dispatched = 0
      ∧ (dispatchQueuedWork env batchOverride maxPolOverride false now store).attempts = 0
      ∧ (dispatchQueuedWork env batchOverride maxPolOverride false now store).store = store
      ∧ (dispatchQueuedWork env batchOverride maxPolOverride false now store).queueState
          = env.queueState)
    ∧ (0 < (if maxPolOverride > 0 then maxPolOverride else (env.cfgMaxPolecats : Int))
        - (env.activePolecats : Int) →
      ((dispatchQueuedWork env batchOverride maxPolOverride false now store).attempts : Int)
        = min ((if maxPolOverride > 0 then maxPolOverride else (env.cfgMaxPolecats : Int))
                - (env.activePolecats : Int))
            (min (if batchOverride > 0 then batchOverride else (env.cfgBatchSize : Int))
              (((getReadyQueuedBeads env.readyQuery).1.length : Int)))) := by
  have hbatch := batchSize_nonneg batchOverride env.cfgBatchSize
  refine ⟨fun hcap => ?_, fun hcap => ?_⟩
  · simp [dispatchQueuedWork, hp, he, hcap]
  · have hnc : ¬((if maxPolOverride > 0 then maxPolOverride else (env.cfgMaxPolecats : Int))
        - (env.activePolecats : Int) ≤ 0) := by omega
    by_cases hlen : (getReadyQueuedBeads env.readyQuery).1.length = 0
    · simp [dispatchQueuedWork, hp, he, hnc, hlen]
      omega
    · simp only [dispatchQueuedWork, hp, he, Bool.not_true, Bool.not_false,
        Bool.false_and, Bool.false_eq_true, if_false, if_neg hnc, if_neg hlen]
      split <;> split <;> rw [Int.toNat_of_nonneg (by omega)] <;> omega

/-- A concrete dispatch environment: capacity 3 (5 configured, 2 active),
batch size 2, three ready queued beads, all sling attempts succeeding. -/
def envC1 : DispatchEnv :=
  { queueState := ⟨false, "", "", 0⟩, enabled := true, cfgMaxPolecats := 5,
    cfgBatchSize := 2, activePolecats := 2,
    readyQuery := Except.ok
      [⟨"gt-1", "t1", "", ["gt:queued", "gt:queued:rig:r1"]⟩,
       ⟨"gt-2", "t2", "", ["gt:queued", "gt:queued:rig:r2"]⟩,
       ⟨"gt-3", "t3", "", ["gt:queued"]⟩],
    slingOk := fun _ => true }

/-- Witness for C1: in `envC1` (not paused, enabled, capacity 3 > 0) the
cycle makes exactly min(3, 2, 3) = 2 dispatch attempts. -/
theorem dispatch_cycle_attempts_min_witness :
    envC1.queueState.paused = false ∧ envC1.enabled = true
    ∧ 0 < (5 : Int) - (2 : Nat)
    ∧ (dispatchQueuedWork envC1 0 0 false "now1" (fun _ => [])).attempts = 2 := by
  refine ⟨rfl, rfl, by decide, ?_⟩
  have h := (dispatch_cycle_attempts_min envC1 0 0 "now1" (fun _ => [])
    rfl rfl).2 (by decide)
  revert h
  decide

/-- C2: When a queued bead's dispatch fails after the claim, the dispatcher
re-queues it: the `queued` label and the `queued:rig:<name>` label for its
target rig are back on the bead, the dispatch returns an error, and the
cycle's loop continues with the next candidate instead of aborting. -/
theorem requeue_on_dispatch_failure (b : readyQueuedBead)
    (slingOk : String → Bool) (store : Store) (rest : List readyQueuedBead)
    (h : slingOk b.ID = false) :
    ((dispatchSingleBead b slingOk store).1).isSome = true
    ∧ LabelQueued ∈ (dispatchSingleBead b slingOk store).2 b.ID
    ∧ (LabelQueueRig ++ b.TargetRig) ∈ (dispatchSingleBead b slingOk store).2 b.ID
    ∧ dispatchLoop slingOk (b :: rest) store
        = dispatchLoop slingOk rest (dispatchSingleBead b slingOk store).2 := by
  refine ⟨?_, ?_, ?_, ?_⟩
  · simp [dispatchSingleBead, h]
  · simp [dispatchSingleBead, h, requeueBead]
  · simp [dispatchSingleBead, h, requeueBead]
  · conv_lhs => rw [dispatchLoop]
    simp [dispatchSingleBead, h]

/-- Witness for C2: a concrete failing dispatch of bead `gt-9` targeted at
rig `r9` returns an error, leaves both queue labels on the bead, and the
cycle continues past it. -/
theorem requeue_on_dispatch_failure_witness :
    ((fun _ => false : String → Bool) "gt-9" = false)
    ∧ ((dispatchSingleBead ⟨"gt-9", "t", "r9", "", []⟩ (fun _ => false)
        (fun _ => ["gt:queued", "gt:queued:rig:r9"])).1).isSome = true
    ∧ LabelQueued ∈ (dispatchSingleBead ⟨"gt-9", "t", "r9", "", []⟩ (fun _ => false)
        (fun _ => ["gt:queued", "gt:queued:rig:r9"])).2 "gt-9"
    ∧ ("gt:queued:rig:" ++ "r9") ∈ (dispatchSingleBead ⟨"gt-9", "t", "r9", "", []⟩
        (fun _ => false) (fun _ => ["gt:queued", "gt:queued:rig:r9"])).2 "gt-9" := by
  have h := requeue_on_dispatch_failure ⟨"gt-9", "t", "r9", "", []⟩
    (fun _ => false) (fun _ => ["gt:queued", "gt:queued:rig:r9"]) [] rfl
  exact ⟨rfl, h.1, h.2.1, h.2.2.1⟩

/-- C3: Dispatching an issue whose status is `pinned` or `hooked` without
the force option returns an error naming the current binding status; the
spawn step is never reached and the convoy store is untouched. -/
theorem sling_rejects_bound_bead (beadID account agent args subject bd title
    : String) (create noConvoy : Bool) (townRootRes : Except Unit String)
    (spawnOk hookOk : Bool) (newID : String) (cs : List Convoy) :
    (slingBeadToPolecat beadID
        ⟨false, account, create, agent, noConvoy, args, subject, "/town", bd⟩
        ⟨.ok ⟨"pinned", title⟩, townRootRes, spawnOk, hookOk, newID⟩ cs
      = { err := some ("already " ++ "pinned" ++ " (use --force to re-sling)"),
          spawnAttempted := false, spawned := false, convoys := cs })
    ∧ (slingBeadToPolecat beadID
        ⟨false, account, create, agent, noConvoy, args, subject, "/town", bd⟩
        ⟨.ok ⟨"hooked", title⟩, townRootRes, spawnOk, hookOk, newID⟩ cs
      = { err := some ("already " ++ "hooked" ++ " (use --force to re-sling)"),
          spawnAttempted := false, spawned := false, convoys := cs }) := by
  constructor <;> simp [slingBeadToPolecat]

/-- C4: A dispatch that reaches the convoy step (bead readable and not
bound, spawn succeeded, convoy tracking not disabled) creates a
single-member auto-convoy exactly when no open convoy tracks the issue,
and otherwise reuses the existing convoy, leaving the convoy store
unchanged — never creating a second convoy for an already-tracked issue. -/
theorem sling_auto_convoy (beadID account agent args subject bd title
    : String) (create : Bool) (townRootRes : Except Unit String)
    (hookOk : Bool) (newID : String) (cs : List Convoy) :
    (slingBeadToPolecat beadID
        ⟨false, account, create, agent, false, args, subject, "/town", bd⟩
        ⟨.ok ⟨"open", title⟩, townRootRes, true, hookOk, newID⟩ cs).convoys
      = (if isTrackedByConvoy beadID cs = ""
         then cs ++ [{ id := newID, isOpenConvoy := true, members := [beadID] }]
         else cs) := by
  by_cases h : isTrackedByConvoy beadID cs = "" <;>
    cases hookOk <;>
      simp [slingBeadToPolecat, createAutoConvoy, h]

/-- C5: A dry-run dispatch cycle returns zero dispatches, makes no dispatch
attempt, reports no error, and mutates nothing — the label store and the
queue runtime state are returned unchanged; and whenever the cycle gets
past the paused, capacity and ready checks it produces the plan (capacity,
limits, ready count, and the min-computed batch that would dispatch). -/
theorem dry_run_no_mutation (env : DispatchEnv) (bo mo : Int) (now : String)
    (store : Store) :
    (dispatchQueuedWork env bo mo true now store).dispatched = 0
    ∧ (dispatchQueuedWork env bo mo true now store).attempts = 0
    ∧ (dispatchQueuedWork env bo mo true now store).err = none
    ∧ (dispatchQueuedWork env bo mo true now store).store = store
    ∧ (dispatchQueuedWork env bo mo true now store).queueState = env.queueState
    ∧ (dispatchQueuedWork env bo mo true now store).plan
      = (if env.queueState.paused = true then none
         else if (if mo > 0 then mo else (env.cfgMaxPolecats : Int))
             - (env.activePolecats : Int) ≤ 0 then none
         else if (getReadyQueuedBeads env.readyQuery).1.length = 0 then none
         else some
           { toDispatch :=
               (if ((getReadyQueuedBeads env.readyQuery).1.length : Int)
                   < (if (if bo > 0 then bo else (env.cfgBatchSize : Int))
                       < (if mo > 0 then mo else (env.cfgMaxPolecats : Int))
                           - (env.activePolecats : Int)
                      then (if bo > 0 then bo else (env.cfgBatchSize : Int))
                      else (if mo > 0 then mo else (env.cfgMaxPolecats : Int))
                          - (env.activePolecats : Int))
                then ((getReadyQueuedBeads env.readyQuery).1.length : Int)
                else (if (if bo > 0 then bo else (env.cfgBatchSize : Int))
                       < (if mo > 0 then mo else (env.cfgMaxPolecats : Int))
                           - (env.activePolecats : Int)
                      then (if bo > 0 then bo else (env.cfgBatchSize : Int))
                      else (if mo > 0 then mo else (env.cfgMaxPolecats : Int))
                          - (env.activePolecats : Int))).toNat,
             activePolecats := env.activePolecats,
             maxPolecats := if mo > 0 then mo else (env.cfgMaxPolecats : Int),
             batchSize := if bo > 0 then bo else (env.cfgBatchSize : Int),
             readyCount := (getReadyQueuedBeads env.readyQuery).1.length,
             beads := ((getReadyQueuedBeads env.readyQuery).1.take
                 (if ((getReadyQueuedBeads env.readyQuery).1.length : Int)
                     < (if (if bo > 0 then bo else (env.cfgBatchSize : Int))
                         < (if mo > 0 then mo else (env.cfgMaxPolecats : Int))
                             - (env.activePolecats : Int)
                        then (if bo > 0 then bo else (env.cfgBatchSize : Int))
                        else (if mo > 0 then mo else (env.cfgMaxPolecats : Int))
                            - (env.activePolecats : Int))
                  then ((getReadyQueuedBeads env.readyQuery).1.length : Int)
                  else (if (if bo > 0 then bo else (env.cfgBatchSize : Int))
                         < (if mo > 0 then mo else (env.cfgMaxPolecats : Int))
                             - (env.activePolecats : Int)
                        then (if bo > 0 then bo else (env.cfgBatchSize : Int))
                        else (if mo > 0 then mo else (env.cfgMaxPolecats : Int))
                            - (env.activePolecats : Int))).toNat).map
               (fun b => (b.ID, b.TargetRig)) }) := by
  by_cases hp : env.queueState.paused
  · simp [dispatchQueuedWork, hp]
  · by_cases hcap : (if mo > 0 then mo else (env.cfgMaxPolecats : Int))
        - (env.activePolecats : Int) ≤ 0
    · simp [dispatchQueuedWork, hp, hcap]
    · by_cases hlen : (getReadyQueuedBeads env.readyQuery).1.length = 0
      · simp [dispatchQueuedWork, hp, hcap, hlen]
      · simp [dispatchQueuedWork, hp, hcap, hlen]

/-- C10: A non-dry-run cycle whose town settings mark the queue as not
enabled returns zero dispatches with no error and performs no claim,
dispatch or state change; in dry-run mode the enabled check is bypassed —
the cycle computes exactly what it would with the queue enabled. -/
theorem queue_disabled_no_dispatch (pausedBy la : String) (lc : Nat)
    (cm cb ap : Nat) (q : Except Unit (List RawReadyBead))
    (slingOk : String → Bool) (bo mo : Int) (now : String) (store : Store) :
    (dispatchQueuedWork ⟨⟨false, pausedBy, la, lc⟩, false, cm, cb, ap, q, slingOk⟩
        bo mo false now store
      = { dispatched := 0, attempts := 0, err := none, store := store,
          queueState := ⟨false, pausedBy, la, lc⟩, plan := none })
    ∧ dispatchQueuedWork ⟨⟨false, pausedBy, la, lc⟩, false, cm, cb, ap, q, slingOk⟩
        bo mo true now store
      = dispatchQueuedWork ⟨⟨false, pausedBy, la, lc⟩, true, cm, cb, ap, q, slingOk⟩
        bo mo true now store := by
  constructor <;> simp [dispatchQueuedWork]

/-- C9: When the `bd ready` invocation fails, `getReadyQueuedBeads`
returns an empty list and a nil error (and `listQueuedBeads` does the
same for its `bd list` query), so a dispatch cycle with a failing ready
query is indistinguishable from one over an empty queue: zero dispatches
and a success return. -/
theorem ready_query_failopen (qs : QueueState) (enabled : Bool)
    (cm cb ap : Nat) (slingOk : String → Bool) (bo mo : Int) (dryRun : Bool)
    (now : String) (store : Store) :
    getReadyQueuedBeads (Except.error ()) = ([], none)
    ∧ listQueuedBeads (Except.error ()) = ([], none)
    ∧ dispatchQueuedWork ⟨qs, enabled, cm, cb, ap, Except.error (), slingOk⟩
        bo mo dryRun now store
      = dispatchQueuedWork ⟨qs, enabled, cm, cb, ap, Except.ok [], slingOk⟩
        bo mo dryRun now store
    ∧ (dispatchQueuedWork ⟨qs, enabled, cm, cb, ap, Except.error (), slingOk⟩
        bo mo dryRun now store).dispatched = 0
    ∧ (dispatchQueuedWork ⟨qs, enabled, cm, cb, ap, Except.error (), slingOk⟩
        bo mo dryRun now store).err = none := by
  have hready : (getReadyQueuedBeads (Except.error () :
      Except Unit (List RawReadyBead))).1 = [] := rfl
  refine ⟨rfl, rfl, rfl, ?_, ?_⟩ <;>
    · simp only [dispatchQueuedWork, hready, List.length_nil]
      split_ifs <;> rfl

/-- A concrete dispatch environment whose single ready bead fails to
dispatch: capacity 5, batch 5, one ready bead, sling always failing. The
stored runtime state carries an older `last_dispatch_at`. -/
def envC8 : DispatchEnv :=
  { queueState := ⟨false, "", "2025-01-01T00:00:00Z", 7⟩, enabled := true,
    cfgMaxPolecats := 5, cfgBatchSize := 5, activePolecats := 0,
    readyQuery := Except.ok [⟨"gt-8", "t8", "", ["gt:queued", "gt:queued:rig:r8"]⟩],
    slingOk := fun _ => false }

/-- Counterexample to C8 as stated: this non-dry-run cycle runs to the end
(one dispatch attempt, which fails, so zero dispatched), yet the queue
runtime state still carries the previous `last_dispatch_at` and
`last_dispatch_count` — nothing is recorded for a cycle with zero
successful dispatches. -/
theorem record_dispatch_counterexample :
    (dispatchQueuedWork envC8 0 0 false "2026-02-02T00:00:00Z"
        (fun _ => [])).attempts = 1
    ∧ (dispatchQueuedWork envC8 0 0 false "2026-02-02T00:00:00Z"
        (fun _ => [])).dispatched = 0
    ∧ (dispatchQueuedWork envC8 0 0 false "2026-02-02T00:00:00Z"
        (fun _ => [])).queueState = envC8.queueState
    ∧ (dispatchQueuedWork envC8 0 0 false "2026-02-02T00:00:00Z"
        (fun _ => [])).queueState.lastDispatchAt ≠ "2026-02-02T00:00:00Z" := by
  refine ⟨by decide, by decide, by decide, by decide⟩

set_option maxHeartbeats 1000000 in
/-- C8 (amended): at the end of every non-dry-run dispatch cycle in which
at least one bead was successfully dispatched, the queue runtime state
records `last_dispatch_at` (the cycle's timestamp) and
`last_dispatch_count` (the cycle's dispatch count). -/
theorem record_dispatch_on_success (env : DispatchEnv) (bo mo : Int)
    (now : String) (store : Store)
    (h : 0 < (dispatchQueuedWork env bo mo false now store).dispatched) :
    (dispatchQueuedWork env bo mo false now store).queueState.lastDispatchAt = now
    ∧ (dispatchQueuedWork env bo mo false now store).queueState.lastDispatchCount
        = (dispatchQueuedWork env bo mo false now store).dispatched := by
  unfold dispatchQueuedWork at h ⊢
  simp only [apply_ite DispatchOutcome.dispatched,
    apply_ite DispatchOutcome.queueState] at h ⊢
  by_cases hp : env.queueState.paused = true
  · rw [if_pos hp] at h
    exact absurd h (by omega)
  rw [if_neg hp] at h ⊢
  by_cases he : (!env.enabled && !false) = true
  · rw [if_pos he] at h
    exact absurd h (by omega)
  rw [if_neg he] at h ⊢
  by_cases hcap : (if mo > 0 then mo else (env.cfgMaxPolecats : Int))
      - (env.activePolecats : Int) ≤ 0
  · rw [if_pos hcap] at h
    exact absurd h (by omega)
  rw [if_neg hcap] at h ⊢
  by_cases hlen : (getReadyQueuedBeads env.readyQuery).1.length = 0
  · rw [if_pos hlen] at h
    exact absurd h (by omega)
  rw [if_neg hlen] at h ⊢
  rw [if_neg (by simp : ¬(false = true))] at h ⊢
  rw [if_pos h]
  refine ⟨rfl, ?_⟩
  rw [if_neg hp, if_neg he, if_neg hcap, if_neg hlen,
    if_neg (by simp : ¬(false = true))]
  rfl

/-- Witness for the amended C8: a concrete cycle that dispatches its one
ready bead records the cycle timestamp and count 1 in the runtime state. -/
theorem record_dispatch_on_success_witness :
    0 < (dispatchQueuedWork ⟨⟨false, "", "", 0⟩, true, 5, 5, 0,
          Except.ok [⟨"gt-8", "t8", "", ["gt:queued", "gt:queued:rig:r8"]⟩],
          fun _ => true⟩ 0 0 false "2026-02-02T00:00:00Z" (fun _ => [])).dispatched
    ∧ (dispatchQueuedWork ⟨⟨false, "", "", 0⟩, true, 5, 5, 0,
          Except.ok [⟨"gt-8", "t8", "", ["gt:queued", "gt:queued:rig:r8"]⟩],
          fun _ => true⟩ 0 0 false "2026-02-02T00:00:00Z"
          (fun _ => [])).queueState.lastDispatchAt = "2026-02-02T00:00:00Z" := by
  refine ⟨by decide, ?_⟩
  exact (record_dispatch_on_success ⟨⟨false, "", "", 0⟩, true, 5, 5, 0,
    Except.ok [⟨"gt-8", "t8", "", ["gt:queued", "gt:queued:rig:r8"]⟩],
    fun _ => true⟩ 0 0 "2026-02-02T00:00:00Z" (fun _ => []) (by decide)).1

/-- The reaper's SQL candidate clause agrees with the claim's declarative
characterisation of a stale auto-closable issue. -/
theorem staleCandidate_iff (db : BeadsDB) (cutoff : Nat) (i : Issue) :
    staleCandidate db cutoff i = true ↔ specStaleAutoClose db cutoff i := by
  simp only [staleCandidate, specStaleAutoClose, isOpenStatus,
    Bool.and_eq_true, Bool.not_eq_true', List.any_eq_false, List.any_eq_true,
    decide_eq_true_eq, Bool.or_eq_true, beq_iff_eq, bne_iff_ne, not_exists,
    Bool.and_eq_false_iff, gt_iff_lt]
  constructor
  · rintro ⟨⟨⟨⟨⟨hst, hupd⟩, hpri⟩, hty⟩, hfwd⟩, hbwd⟩
    refine ⟨hst, hupd, hpri, hty, ?_⟩
    intro d hcon
    obtain ⟨hd, j, hj, hjopen, hdir⟩ := hcon
    rcases hdir with ⟨hdi, hdj⟩ | ⟨hdi, hdj⟩
    · exact hfwd d hd ⟨hdi, j, hj, hdj.symm, hjopen⟩
    · exact hbwd d hd ⟨hdi, j, hj, hdj.symm, hjopen⟩
  · rintro ⟨hst, hupd, hpri, hty, hnolink⟩
    refine ⟨⟨⟨⟨⟨hst, hupd⟩, hpri⟩, hty⟩, ?_⟩, ?_⟩
    · rintro d hd ⟨hdi, j, hj, hdj, hjopen⟩
      exact hnolink d ⟨hd, j, hj, hjopen, Or.inl ⟨hdi, hdj.symm⟩⟩
    · rintro d hd ⟨hdi, j, hj, hdj, hjopen⟩
      exact hnolink d ⟨hd, j, hj, hjopen, Or.inr ⟨hdi, hdj.symm⟩⟩

/-- C6: The wisp reaper's stale-issue pass auto-closes exactly the open or
in-progress issues older than the stale threshold whose priority is
numerically greater than 1, whose type is not `epic`, and that are not
linked by any dependency — in either direction — to an open or in-progress
issue; every other row is left unchanged, the returned count is the number
of such issues, and the default stale threshold is 30 days. -/
theorem stale_autoclose_exact (db : BeadsDB) (cutoff nowT : Nat) :
    (autoCloseStaleIssuesInDB db cutoff nowT).2.issues
      = db.issues.map (fun i =>
          if specStaleAutoClose db cutoff i then reaperClose nowT i else i)
    ∧ (autoCloseStaleIssuesInDB db cutoff nowT).1
      = (db.issues.filter (fun i => decide (specStaleAutoClose db cutoff i))).length
    ∧ staleIssueAge none = 30 * 24 * 60 * 60 := by
  have hpt : ∀ i, staleCandidate db cutoff i
      = decide (specStaleAutoClose db cutoff i) := by
    intro i
    rcases Bool.eq_false_or_eq_true (staleCandidate db cutoff i) with h | h <;>
      rw [h]
    · simp [(staleCandidate_iff db cutoff i).mp h]
    · have hns : ¬ specStaleAutoClose db cutoff i := fun hs => by
        have hc := (staleCandidate_iff db cutoff i).mpr hs
        rw [h] at hc
        exact Bool.false_ne_true hc
      simp [hns]
  have hfun : staleCandidate db cutoff
      = fun i => decide (specStaleAutoClose db cutoff i) := funext hpt
  refine ⟨?_, ?_, rfl⟩
  · show (db.issues.map fun i =>
        if staleCandidate db cutoff i then reaperClose nowT i else i) = _
    simp only [hpt, decide_eq_true_eq]
  · show (db.issues.filter (staleCandidate db cutoff)).length = _
    rw [hfun]

/-- C7: If pouring the observability molecule fails, the returned handle
has an empty root id, and every subsequent operation on it — `closeStep`,
`failStep`, `close` — is a no-op: it issues no `bd` invocation, leaves the
effect trace unchanged, and returns without error, so the patrol's own
work proceeds unaffected. -/
theorem failed_pour_noop (discovered : String → List (String × String))
    (slug reason : String) (log : BdLog) :
    (pourDogMolecule (Except.error ()) discovered).rootID = ""
    ∧ (pourDogMolecule (Except.error ()) discovered).closeStep slug log = log
    ∧ (pourDogMolecule (Except.error ()) discovered).failStep slug reason log = log
    ∧ (pourDogMolecule (Except.error ()) discovered).close log = log := by
  exact ⟨rfl, rfl, rfl, rfl⟩

end Gastown
